import Mathlib

/-!
Verification development for the `jiraCore` repository (files `jiraCore.py`
and `jiraVariables.py`).

The development shallowly embeds the parts of the code the claims are
about:

- a model `PyVal` of the Python/JSON values the code manipulates, with
  `pyStr` mirroring Python `str()` (as used by `str(...)` and f-string
  interpolation) and `jsonDumps` mirroring `json.dumps`;
- the form-response consolidation loop of `JiraAPI.issue_detail`
  (jiraCore.py lines 537-562) as `consolidateRow`, together with the
  static lookup table `response_type_col_ref` (lines 993-1026);
- the request/response behaviour of every API operation as `opRun`,
  a function from an abstract `Outcome` of the single HTTP exchange to
  the value the method hands back to its caller;
- the mutable attributes of the `JiraAPI` object as `ClientState`, with
  `clientStep` giving the state effect of each method and `mkClient`
  the constructor sequence of `JiraAPI.__init__`;
- `user_by_email` (lines 216-264) including its email pattern check, and
  the module-level helper `get_file_application_type` (lines 1028-1051).
-/

/-- Model of the Python/JSON values the code manipulates: `None`, booleans,
integers, strings, lists and string-keyed dictionaries.  This covers every
value produced by `json.loads` on the payloads the code processes (floats
do not occur in the claims under study). -/
inductive PyVal where
  | none : PyVal
  | bool : Bool → PyVal
  | int : Int → PyVal
  | str : String → PyVal
  | list : List PyVal → PyVal
  | dict : List (String × PyVal) → PyVal

/-- Python exceptions that the embedded code fragments can raise. -/
inductive PyErr where
  | keyError
  | typeError
  | attributeError
  | nameError
  deriving DecidableEq, Repr

/-- First-match lookup in an association list, mirroring Python dictionary
indexing on the string-keyed dictionaries built by `json.loads` (which
never contain duplicate keys). -/
def lookupStr (kvs : List (String × PyVal)) (k : String) : Option PyVal :=
  match kvs with
  | [] => Option.none
  | (k2, v) :: rest => if k2 = k then some v else lookupStr rest k

/-- Python `d.get(k)`: the value at `k`, or `None` when the key is absent;
on a non-dictionary it also yields `None` (modelling `jmespath` style
total access used where the source never raises). -/
def dictGetD (v : PyVal) (k : String) : PyVal :=
  match v with
  | .dict kvs => (lookupStr kvs k).getD .none
  | _ => .none

mutual

/-- Structural equality on embedded Python values, mirroring Python `==`
on JSON-derived data.  (Python additionally equates `True` with `1` and
compares dictionaries order-insensitively; neither case arises for the
string identifiers compared by the code under study.) -/
def pyEq : PyVal → PyVal → Bool
  | .none, .none => true
  | .bool a, .bool b => a = b
  | .int a, .int b => a = b
  | .str a, .str b => a = b
  | .list a, .list b => pyEqList a b
  | .dict a, .dict b => pyEqKVs a b
  | _, _ => false

def pyEqList : List PyVal → List PyVal → Bool
  | [], [] => true
  | a :: as2, b :: bs => pyEq a b && pyEqList as2 bs
  | _, _ => false

def pyEqKVs : List (String × PyVal) → List (String × PyVal) → Bool
  | [], [] => true
  | (k1, v1) :: as2, (k2, v2) :: bs => k1 = k2 && pyEq v1 v2 && pyEqKVs as2 bs
  | _, _ => false

end

/-- Python truthiness, as used by `if user_data:`. -/
def pyTruthy : PyVal → Bool
  | .none => false
  | .bool b => b
  | .int n => n != 0
  | .str s => s ≠ ""
  | .list xs => !xs.isEmpty
  | .dict kvs => !kvs.isEmpty

/-- `listPrefix a b` is true when `a` is an initial segment of `b`. -/
def listPrefix : List Char → List Char → Bool
  | [], _ => true
  | _ :: _, [] => false
  | a :: as2, b :: bs => a = b && listPrefix as2 bs

/-- Python substring containment `needle in hay` on strings (the empty
needle is contained in every string). -/
def strIn (needle hay : List Char) : Bool :=
  match hay with
  | [] => needle.isEmpty
  | _ :: t => listPrefix needle hay || strIn needle t

/-- Join with the separator `", "` used both by Python container `repr`
and by the default `json.dumps` item separator. -/
def joinComma (l : List String) : String :=
  String.intercalate ", " l

mutual

/-- Python `repr` on the embedded values.  String quoting uses single
quote characters; escaping of quotes, backslashes and non-printable
characters inside string contents is not modelled (no claim exercises
such contents). -/
def pyRepr : PyVal → String
  | .none => "None"
  | .bool b => if b then "True" else "False"
  | .int n => toString n
  | .str s => "\x27" ++ s ++ "\x27"
  | .list xs => "[" ++ joinComma (pyReprList xs) ++ "]"
  | .dict kvs => "\x7b" ++ joinComma (pyReprKVs kvs) ++ "\x7d"

def pyReprList : List PyVal → List String
  | [] => []
  | v :: vs => pyRepr v :: pyReprList vs

def pyReprKVs : List (String × PyVal) → List String
  | [] => []
  | (k, v) :: kvs => ("\x27" ++ k ++ "\x27: " ++ pyRepr v) :: pyReprKVs kvs

end

/-- Python `str()` (also the conversion applied by f-string
interpolation): the identity on strings, `repr` on everything else. -/
def pyStr : PyVal → String
  | .str s => s
  | v => pyRepr v

/-- JSON string escaping for `jsonDumps`: quote and backslash characters
are escaped; escaping of control and non-ASCII characters is not
modelled (no claim exercises such contents). -/
def jsonEscapeChar (c : Char) : List Char :=
  if c = '"' ∨ c = '\\' then ['\\', c] else [c]

def jsonEscape (s : String) : String :=
  String.mk (s.data.foldr (fun c acc => jsonEscapeChar c ++ acc) [])

mutual

/-- `json.dumps` with its default separators, as called at jiraCore.py
line 559 on the list of selected-choice dictionaries. -/
def jsonDumps : PyVal → String
  | .none => "null"
  | .bool b => if b then "true" else "false"
  | .int n => toString n
  | .str s => "\"" ++ jsonEscape s ++ "\""
  | .list xs => "[" ++ joinComma (jsonDumpsList xs) ++ "]"
  | .dict kvs => "\x7b" ++ joinComma (jsonDumpsKVs kvs) ++ "\x7d"

def jsonDumpsList : List PyVal → List String
  | [] => []
  | v :: vs => jsonDumps v :: jsonDumpsList vs

def jsonDumpsKVs : List (String × PyVal) → List String
  | [] => []
  | (k, v) :: kvs => ("\"" ++ jsonEscape k ++ "\": " ++ jsonDumps v) :: jsonDumpsKVs kvs

end

example : pyStr (PyVal.str "abc") = "abc" := rfl
example : pyStr PyVal.none = "None" := rfl
example : pyStr (PyVal.list [PyVal.str "a", PyVal.int 3]) = "[\x27a\x27, 3]" := rfl
example : jsonDumps (PyVal.list [PyVal.dict [("choice_id", PyVal.str "1"), ("value", PyVal.str "A")]])
    = "[\x7b\"choice_id\": \"1\", \"value\": \"A\"\x7d]" := rfl

/-!
Form response consolidation (`JiraAPI.issue_detail`, jiraCore.py
lines 496-562).  The method builds `df_questions` from
`design.questions` (each row holding `questionID` plus the
`jiraField`, `type`, `label`, `questionKey` and `choices` entries of
the question dictionary, read with `.get`, so `None` when absent) and
`df_responses` from `state.answers` (each row holding `questionID`
plus `textField` (from `text`), `users`, `label`, `choices`, `date`
and `time`).  The two frames are merged on `questionID`, which
suffixes the shared column names `label` and `choices` with `_x`
(answer side) and `_y` (question side).  `Row` models one merged row.
-/

/-- One row of the merged `question_response_df` of `issue_detail`.
`questionID` is the shared key; the remaining fields hold the values
the loops at jiraCore.py lines 506-526 read out of the answer and
question dictionaries with `.get` (hence `PyVal.none` when a key is
absent).  `qtype` is the column named `type` in the frame. -/
structure Row where
  questionID : String
  textField : PyVal
  users : PyVal
  label_x : PyVal
  choices_x : PyVal
  date : PyVal
  time : PyVal
  jiraField : PyVal
  qtype : PyVal
  label_y : PyVal
  questionKey : PyVal
  choices_y : PyVal

/-- The static type-code to display-name table of
`JiraAPI.response_type_ref` (jiraCore.py lines 974-991). -/
def response_name_table : List (String × String) :=
  [("ts", "Text Short"), ("cs", "Choice Selector"), ("cd", "Choice Dropdown"),
   ("cl", "Choice List"), ("us", "User"), ("um", "User Multiple"),
   ("at", "Attachment"), ("dt", "Date/Time"), ("da", "Date"), ("ti", "Time"),
   ("tl", "Title"), ("cm", "Choice Multiple"), ("pg", "Paragraph"),
   ("rt", "Rich-Text")]

/-- The static type-code to source-column table of
`JiraAPI.response_type_col_ref` (jiraCore.py lines 1009-1024). -/
def response_col_table : List (String × String) :=
  [("ts", "textField"), ("cs", "choices_x"), ("cd", "choices_x"),
   ("cl", "choices_x"), ("cm", "choices_x"), ("us", "users"),
   ("um", "users"), ("at", "textField"), ("dt", "Date Time"),
   ("da", "date"), ("ti", "time"), ("tl", "textField"),
   ("pg", "textField"), ("rt", "textField")]

/-- First-match lookup in a string-to-string table (Python `dict.get`). -/
def tableGet (t : List (String × String)) (k : String) : Option String :=
  match t with
  | [] => Option.none
  | (k2, v) :: rest => if k2 = k then some v else tableGet rest k

/-- `JiraAPI.response_type_ref` (jiraCore.py lines 959-991): `dict.get`
on the display-name table; any key that is not one of the listed
strings (including a non-string key) yields `None`. -/
def response_type_ref (v : PyVal) : Option String :=
  match v with
  | .str c => tableGet response_name_table c
  | _ => Option.none

/-- `JiraAPI.response_type_col_ref` (jiraCore.py lines 993-1026):
`dict.get` on the source-column table; any key that is not one of the
listed strings (including a non-string key) yields `None`. -/
def response_type_col_ref (v : PyVal) : Option String :=
  match v with
  | .str c => tableGet response_col_table c
  | _ => Option.none

/-- The column labels of the merged `question_response_df` that the
consolidation loop can read (the two columns written by the loop
itself, `type_name` and `value_consolidated`, are never read). -/
def rowColumns : List String :=
  ["questionID", "textField", "users", "label_x", "choices_x", "date",
   "time", "jiraField", "type", "label_y", "questionKey", "choices_y"]

/-- Total access to a column of a merged row (used to state what the
loop reads); unknown labels yield `None`. -/
def rowField (row : Row) (c : String) : PyVal :=
  if c = "questionID" then .str row.questionID
  else if c = "textField" then row.textField
  else if c = "users" then row.users
  else if c = "label_x" then row.label_x
  else if c = "choices_x" then row.choices_x
  else if c = "date" then row.date
  else if c = "time" then row.time
  else if c = "jiraField" then row.jiraField
  else if c = "type" then row.qtype
  else if c = "label_y" then row.label_y
  else if c = "questionKey" then row.questionKey
  else if c = "choices_y" then row.choices_y
  else .none

/-- `question_response_df.loc[ind, col]` where `col` is the result of
`response_type_col_ref` (possibly `None`): pandas raises `KeyError`
when the label is `None` or not a column of the frame. -/
def rowGetE (row : Row) (col : Option String) : Except PyErr PyVal :=
  match col with
  | Option.none => .error .keyError
  | some c => if rowColumns.contains c then .ok (rowField row c) else .error .keyError

/-- Python `v in (tuple of string literals)`: true exactly when `v` is
one of the listed strings (a non-string `v` compares unequal to every
element). -/
def pyInTupleStr (v : PyVal) (ss : List String) : Bool :=
  match v with
  | .str c => ss.contains c
  | _ => false

/-- Python indexing `o[k]` with a string key: a dictionary yields the
entry or raises `KeyError`; any other value raises `TypeError`. -/
def pyIndexStrKey (o : PyVal) (k : String) : Except PyErr PyVal :=
  match o with
  | .dict kvs =>
      match lookupStr kvs k with
      | some v => .ok v
      | Option.none => .error .keyError
  | _ => .error .typeError

/-- Python membership `x in container`: on a list, `==` against each
element; on a string, substring test (requiring `x` to be a string);
on a dictionary, key membership; on `None` and the other scalars,
`TypeError`. -/
def pyIn (x container : PyVal) : Except PyErr Bool :=
  match container with
  | .list xs => .ok (xs.any (fun e => pyEq x e))
  | .str s =>
      match x with
      | .str xs => .ok (strIn xs.data s.data)
      | _ => .error .typeError
  | .dict kvs =>
      match x with
      | .str k => .ok ((kvs.map Prod.fst).contains k)
      | _ => .ok false
  | _ => .error .typeError

/-- The list comprehension at jiraCore.py lines 556-558:
`[ (dictionary of choice_id and value) for option in choices_options
if option [\x27id\x27] in choices_responses ]`, evaluating the
membership condition before the element expression for each option in
order. -/
def selectedChoices : List PyVal → PyVal → Except PyErr (List PyVal)
  | [], _ => .ok []
  | o :: rest, resp =>
      match pyIndexStrKey o "id" with
      | .error e => .error e
      | .ok oid =>
        match pyIn oid resp with
        | .error e => .error e
        | .ok b =>
          if b then
            match pyIndexStrKey o "id" with
            | .error e => .error e
            | .ok oid2 =>
              match pyIndexStrKey o "label" with
              | .error e => .error e
              | .ok lbl =>
                match selectedChoices rest resp with
                | .error e => .error e
                | .ok tail => .ok (PyVal.dict [("choice_id", oid2), ("value", lbl)] :: tail)
          else selectedChoices rest resp

/-- The body of the consolidation loop of `JiraAPI.issue_detail`
(jiraCore.py lines 537-562), computing the `value_consolidated` cell
for one merged row.  An `error` result models an exception inside the
`try` block, which the method catches at lines 575-579, returning the
`-30` sentinel for the whole call.

- When the type code is not one of `dt`, `cs`, `cd`, `cl`, `cm`, the
  value is `str` of the cell in the column designated by
  `response_type_col_ref` (a `None` or unknown column label raises
  `KeyError` in pandas).
- When the type code is `dt`, the value is the f-string interpolating
  the `date` and `time` cells around the letter `H`.
- For the choice type codes, when the question-side `choices_y` cell
  is not `None` it must be a list of option dictionaries, and the
  value is `json.dumps` of the selected-choice list; when it is `None`
  the cell is set to Python `None`.  (Iterating a non-list, non-`None`
  `choices_y` raises `TypeError`; a non-empty string would iterate
  over its characters and then fail indexing, also `TypeError`, so the
  error case is modelled uniformly.) -/
def consolidateRow (row : Row) : Except PyErr PyVal :=
  let response_type := row.qtype
  let response_type_col := response_type_col_ref response_type
  if pyInTupleStr response_type ["dt", "cs", "cd", "cl", "cm"] = false then
    match rowGetE row response_type_col with
    | .error e => .error e
    | .ok v => .ok (PyVal.str (pyStr v))
  else if pyInTupleStr response_type ["dt"] then
    .ok (PyVal.str (pyStr row.date ++ "H" ++ pyStr row.time))
  else
    match row.choices_y with
    | PyVal.none => .ok PyVal.none
    | PyVal.list opts =>
        match selectedChoices opts row.choices_x with
        | .error e => .error e
        | .ok sel => .ok (PyVal.str (jsonDumps (PyVal.list sel)))
    | _ => .error .typeError

/-!
API operations (component 4.1 of the spec).  Every method of `JiraAPI`
performs one HTTP exchange inside a `try` block and maps its outcome to
a return value.  `Outcome` abstracts the exchange:

- `success s body`: the request returned status `s` (2xx, so
  `raise_for_status` passed) and all subsequent in-`try` processing of
  the parsed body `body` completed;
- `httpError s`: the request returned non-2xx status `s`, so
  `raise_for_status` raised `requests.exceptions.HTTPError` (the local
  `response` variable is bound in the handler);
- `requestExn`: the `requests.get`/`post`/`put` call itself raised (for
  example a connection error), so the local `response` variable is
  never bound;
- `processExn s`: the request returned status `s` but processing after
  it (for example `json.loads` or the dataframe work) raised a
  non-`HTTPError` exception.
-/

inductive Outcome where
  | success (status : Nat) (body : PyVal)
  | httpError (status : Nat)
  | requestExn
  | processExn (status : Nat)

/-- What a `JiraAPI` method hands back to its caller:

- `status s`: the bare transport status code (methods such as
  `issue_transition` that return `response.status_code` alone);
- `statusEmpty s`: a record carrying the transport status code but
  empty placeholder data instead of a parsed payload (the failure
  returns of `issue_create`);
- `payload s body`: a record (namedtuple or dictionary) carrying both
  the transport status code and the parsed response payload;
- `sentinel q`: a negative numeric failure code, whether returned
  bare, as the first component of a `(code, message)` pair, or inside
  a namedtuple or dictionary with placeholder data;
- `raise`: an exception propagates out of the method to the caller. -/
inductive Ret where
  | status (s : Nat)
  | statusEmpty (s : Nat)
  | payload (s : Nat) (body : PyVal)
  | sentinel (q : Rat)
  | raise

/-- True exactly when the returned value carries the parsed response
payload alongside the status code. -/
def Ret.includesPayload : Ret → Bool
  | .payload _ _ => true
  | _ => false

/-- The API-client operations (the public methods of `JiraAPI` that
perform an HTTP exchange; the constructor-only helpers `init_logger`
and `_set_authenticated_headers` perform none). -/
inductive Op where
  | authenticate
  | projectInfo
  | userInfo
  | userByEmail
  | searchIssues
  | issueCreate
  | issueTransition
  | issueFieldUpdate
  | issueDetail
  | issueAddComment
  | issueAssign
  | issueAddAttachment
  | issueChangelog
  | issueTypesUser
  | issueStatuses
  | roleAddUser
  | roleGetUsers
  | roleInfo
  deriving DecidableEq, BEq

/-- The return behaviour of each operation per outcome, read directly
off the `try`/`except` structure of each method of jiraCore.py.  Notes
on the non-uniform sites:

- `issue_create` (lines 362-375): both handlers return
  `IssueInfo(response.status_code, [], -1, "", "")`, that is the
  transport status with empty data rather than the `-35.1`/`-35`
  sentinels they log; on `requestExn` the handler itself raises
  `NameError` because `response` was never bound.
- `role_info` (lines 948-957): both handlers call `pd.dataframe()`,
  which does not exist (`AttributeError`), so the handler itself
  raises on every failure.
- `user_by_email` is modelled here on its valid-email request path;
  the invalid-email shortcut is modelled by `user_by_email` below.
- `success` means the whole happy path of the method completed, so the
  returned record carries the parsed payload for the methods that
  build one, and the bare status code for the others. -/
def opRun : Op → Outcome → Ret
  | .authenticate, .success s _ => .status s
  | .authenticate, .httpError _ => .sentinel (-14.1)
  | .authenticate, .requestExn => .sentinel (-14)
  | .authenticate, .processExn _ => .sentinel (-14)
  | .projectInfo, .success s _ => .status s
  | .projectInfo, .httpError _ => .sentinel (-16.1)
  | .projectInfo, .requestExn => .sentinel (-16)
  | .projectInfo, .processExn _ => .sentinel (-16)
  | .userInfo, .success s body => .payload s body
  | .userInfo, .httpError _ => .sentinel (-17.1)
  | .userInfo, .requestExn => .sentinel (-17)
  | .userInfo, .processExn _ => .sentinel (-17)
  | .userByEmail, .success s body => .payload s body
  | .userByEmail, .httpError _ => .sentinel (-18.1)
  | .userByEmail, .requestExn => .sentinel (-18)
  | .userByEmail, .processExn _ => .sentinel (-18)
  | .searchIssues, .success s body => .payload s body
  | .searchIssues, .httpError _ => .sentinel (-21.1)
  | .searchIssues, .requestExn => .sentinel (-21)
  | .searchIssues, .processExn _ => .sentinel (-21)
  | .issueCreate, .success s body => .payload s body
  | .issueCreate, .httpError s => .statusEmpty s
  | .issueCreate, .requestExn => .raise
  | .issueCreate, .processExn s => .statusEmpty s
  | .issueTransition, .success s _ => .status s
  | .issueTransition, .httpError _ => .sentinel (-37.1)
  | .issueTransition, .requestExn => .sentinel (-37)
  | .issueTransition, .processExn _ => .sentinel (-37)
  | .issueFieldUpdate, .success s _ => .status s
  | .issueFieldUpdate, .httpError _ => .sentinel (-35.1)
  | .issueFieldUpdate, .requestExn => .sentinel (-35)
  | .issueFieldUpdate, .processExn _ => .sentinel (-35)
  | .issueDetail, .success s body => .payload s body
  | .issueDetail, .httpError _ => .sentinel (-30.1)
  | .issueDetail, .requestExn => .sentinel (-30)
  | .issueDetail, .processExn _ => .sentinel (-30)
  | .issueAddComment, .success s _ => .status s
  | .issueAddComment, .httpError _ => .sentinel (-33.1)
  | .issueAddComment, .requestExn => .sentinel (-33)
  | .issueAddComment, .processExn _ => .sentinel (-33)
  | .issueAssign, .success s _ => .status s
  | .issueAssign, .httpError _ => .sentinel (-34.1)
  | .issueAssign, .requestExn => .sentinel (-34)
  | .issueAssign, .processExn _ => .sentinel (-34)
  | .issueAddAttachment, .success s _ => .status s
  | .issueAddAttachment, .httpError _ => .sentinel (-33.1)
  | .issueAddAttachment, .requestExn => .sentinel (-33)
  | .issueAddAttachment, .processExn _ => .sentinel (-33)
  | .issueChangelog, .success s body => .payload s body
  | .issueChangelog, .httpError _ => .sentinel (-36.1)
  | .issueChangelog, .requestExn => .sentinel (-36)
  | .issueChangelog, .processExn _ => .sentinel (-36)
  | .issueTypesUser, .success s body => .payload s body
  | .issueTypesUser, .httpError _ => .sentinel (-61.1)
  | .issueTypesUser, .requestExn => .sentinel (-61)
  | .issueTypesUser, .processExn _ => .sentinel (-61)
  | .issueStatuses, .success s body => .payload s body
  | .issueStatuses, .httpError _ => .sentinel (-71.1)
  | .issueStatuses, .requestExn => .sentinel (-71)
  | .issueStatuses, .processExn _ => .sentinel (-71)
  | .roleAddUser, .success s _ => .status s
  | .roleAddUser, .httpError _ => .sentinel (-51.1)
  | .roleAddUser, .requestExn => .sentinel (-51)
  | .roleAddUser, .processExn _ => .sentinel (-51)
  | .roleGetUsers, .success s body => .payload s body
  | .roleGetUsers, .httpError _ => .sentinel (-50.1)
  | .roleGetUsers, .requestExn => .sentinel (-50)
  | .roleGetUsers, .processExn _ => .sentinel (-50)
  | .roleInfo, .success s body => .payload s body
  | .roleInfo, .httpError _ => .raise
  | .roleInfo, .requestExn => .raise
  | .roleInfo, .processExn _ => .raise

/-- The whole-number failure code assigned (as `status_code`) at each
call site in the generic `except Exception` handler; the `HTTPError`
handler of the same site assigns this value minus `0.1`.  For
`issue_create` and `role_info` the assigned value is logged but never
actually returned (see `opRun`). -/
def sentinelBase : Op → Rat
  | .authenticate => -14
  | .projectInfo => -16
  | .userInfo => -17
  | .userByEmail => -18
  | .searchIssues => -21
  | .issueCreate => -35
  | .issueTransition => -37
  | .issueFieldUpdate => -35
  | .issueDetail => -30
  | .issueAddComment => -33
  | .issueAssign => -34
  | .issueAddAttachment => -33
  | .issueChangelog => -36
  | .issueTypesUser => -61
  | .issueStatuses => -71
  | .roleAddUser => -51
  | .roleGetUsers => -50
  | .roleInfo => -17

/-- The operations whose happy path returns a record carrying the
parsed response payload together with the status code; the remaining
operations return the bare transport status code. -/
def payloadOps : List Op :=
  [.userInfo, .userByEmail, .searchIssues, .issueCreate, .issueDetail,
   .issueChangelog, .issueTypesUser, .issueStatuses, .roleGetUsers, .roleInfo]

/-!
`JiraAPI.user_by_email` (jiraCore.py lines 216-264) first validates the
address against the compiled pattern (line 234) and only performs the
HTTP search request when the pattern matches.
-/

/-- A character of the class `[a-z0-9]` under `re.IGNORECASE`: an ASCII
letter or digit. -/
def alnumCI (c : Char) : Bool :=
  c.isAlpha || c.isDigit

/-- A character of the class `\\w`: an ASCII letter, digit or
underscore.  (Python `\\w` additionally matches non-ASCII word
characters; the embedding restricts attention to ASCII addresses.) -/
def wordChar (c : Char) : Bool :=
  c.isAlpha || c.isDigit || c = '_'

/-- Backtracking matcher for `p+` followed by the continuation `k`:
consumes one or more characters satisfying `p` and succeeds when `k`
accepts some remainder. -/
def matchPlus (p : Char → Bool) (k : List Char → Bool) : List Char → Bool
  | [] => false
  | c :: rest => p c && (k rest || matchPlus p k rest)

/-- The domain tail `[@]\\w+[.]\\w+` anchored at the end. -/
def matchAtDomain : List Char → Bool
  | '@' :: r =>
      matchPlus wordChar (fun r2 =>
        match r2 with
        | '.' :: r3 => matchPlus wordChar (fun r4 => r4.isEmpty) r3
        | _ => false) r
  | _ => false

/-- The second alphanumeric run `[a-z0-9]+` followed by the domain. -/
def matchLocalTail (cs : List Char) : Bool :=
  matchPlus alnumCI matchAtDomain cs

/-- Core match of the full pattern
`[a-z0-9]+[\\._]?[a-z0-9]+[@]\\w+[.]\\w+` anchored at both ends: after
the first alphanumeric run, the optional separator (a dot or an
underscore) may be consumed or skipped. -/
def matchEmailCore (cs : List Char) : Bool :=
  matchPlus alnumCI (fun r =>
    matchLocalTail r ||
    (match r with
     | c :: r2 => (c = '.' || c = '_') && matchLocalTail r2
     | [] => false)) cs

/-- The compiled pattern check of jiraCore.py line 234-235:
`re.match` with a `$`-anchored pattern, which also accepts a single
trailing newline before the end of the string. -/
def emailPatternMatch (s : String) : Bool :=
  matchEmailCore s.data ||
    (match s.data.getLast? with
     | some '\n' => matchEmailCore s.data.dropLast
     | _ => false)

example : emailPatternMatch "ab@cd.ef" = true := by decide
example : emailPatternMatch "a.b@cd.ef" = true := by decide
example : emailPatternMatch "a@cd.ef" = false := by decide
example : emailPatternMatch "not-an-email" = false := by decide
example : emailPatternMatch "ab@cd" = false := by decide
example : emailPatternMatch "a..b@cd.ef" = false := by decide

/-- The value `user_by_email` hands back: either the namedtuple
`user_info(status_code, jira_user_dict, jira_user_found)` or, from the
`HTTPError` handler, the pair `(status_code, str(errh))` (only its
numeric component is modelled). -/
inductive UserByEmailRet where
  | userRec (status_code : Rat) (jira_user_dict : PyVal) (jira_user_found : Int)
  | errPair (status_code : Rat)

/-- `JiraAPI.user_by_email` (jiraCore.py lines 216-264).  The boolean
component records whether the HTTP search request was performed.

- An address rejected by the pattern returns
  `user_info(-18.1, empty dictionary, 0)` without any request
  (lines 235-240; the local assignment `jira_user_found = -1` there is
  dead, the tuple is built with literal `0`).
- On success with a truthy response list, the first element has
  `avatarUrls` popped and is returned with found flag `1`; `pop`
  raises `KeyError` when the key is absent, and indexing or popping a
  truthy non-list body raises, both landing in the generic handler
  (`-18`).
- On a falsy body, `user_info(status, empty dictionary, 0)`.
- `HTTPError` returns the pair with `-18.1`; any other exception
  returns `user_info(-18, empty dictionary, -1)`. -/
def user_by_email (email_address : String) (out : Outcome) : Bool × UserByEmailRet :=
  if emailPatternMatch email_address = false then
    (false, .userRec (-18.1) (PyVal.dict []) 0)
  else
    match out with
    | .success s body =>
        if pyTruthy body then
          match body with
          | PyVal.list (u :: _) =>
              (match u with
               | PyVal.dict kvs =>
                   if (kvs.map Prod.fst).contains "avatarUrls" then
                     (true, .userRec (s : Rat)
                       (PyVal.dict (kvs.filter (fun kv => kv.1 != "avatarUrls"))) 1)
                   else (true, .userRec (-18) (PyVal.dict []) (-1))
               | _ => (true, .userRec (-18) (PyVal.dict []) (-1)))
          | _ => (true, .userRec (-18) (PyVal.dict []) (-1))
        else (true, .userRec (s : Rat) (PyVal.dict []) 0)
    | .httpError _ => (true, .errPair (-18.1))
    | .requestExn => (true, .userRec (-18) (PyVal.dict []) (-1))
    | .processExn _ => (true, .userRec (-18) (PyVal.dict []) (-1))

/-!
Client object state (`JiraAPI.__init__` and the methods that assign to
`self`).  Scanning jiraCore.py, the only methods that assign instance
attributes after the constructor helpers are `authenticate`
(`self.user_account_id`, line 117) and `project_info`
(`self.project_info` and `self.project_id`, lines 147-148, and
`self.project_id = "-1"` in its generic handler, line 156).  Every
other method only binds local variables.
-/

/-- The configuration read from `jiraVariables.JiraVariables`
(environment and keyring); opaque inputs to the constructor. -/
structure JiraVars where
  base_jira_url : String
  default_issue_type_id : PyVal
  default_priority_id : PyVal
  default_project_key : String

/-- The instance attributes of a `JiraAPI` object.  An `Option.none`
in `project_info_attr`, `project_id` or `user_account_id` means the
attribute was never assigned (so reading it raises
`AttributeError` and, for `project_info_attr`, the `project_info`
method is still visible under that name).  `project_info_attr` models
the instance attribute `project_info` that line 147 creates,
shadowing the method of the same name. -/
structure ClientState where
  base_url : String
  default_issue_type_id : PyVal
  default_priority_id : PyVal
  headers : List (String × String)
  default_project_key : String
  project_info_attr : Option PyVal
  project_id : Option PyVal
  user_account_id : Option PyVal

/-- `jmespath.search("id", body)` as used at jiraCore.py line 148: the
`id` entry of a dictionary (or `None` when absent); `None` on any
non-dictionary document. -/
def jqSearchId (body : PyVal) : PyVal :=
  dictGetD body "id"

/-- The effect of invoking each operation on the instance attributes.

- `authenticate` (lines 95-126): on the happy path it assigns
  `self.user_account_id = user_info.get("accountId")`; when the parsed
  body is not a dictionary, `.get` raises before the assignment and
  the generic handler returns, leaving the state unchanged; both
  failure handlers leave the state unchanged.
- `project_info` (lines 128-159): invoked when the instance attribute
  `project_info` is already bound (any client whose constructor
  completed its project lookup), the call raises `TypeError`
  immediately (a dictionary is not callable) and changes nothing.
  Otherwise, on success it binds `self.project_info` to the parsed
  body and `self.project_id` to its `id` entry; the `HTTPError`
  handler assigns nothing; the generic handler (entered on a request
  or processing exception) assigns `self.project_id = "-1"`.
- No other method of `JiraAPI` assigns to `self`, so every other
  operation leaves the state unchanged. -/
def clientStep (op : Op) (out : Outcome) (st : ClientState) : ClientState :=
  match op with
  | .authenticate =>
      match out with
      | .success _ body =>
          match body with
          | PyVal.dict _ => { st with user_account_id := some (dictGetD body "accountId") }
          | _ => st
      | _ => st
  | .projectInfo =>
      if st.project_info_attr.isSome then st
      else
        match out with
        | .success _ body =>
            { st with project_info_attr := some body, project_id := some (jqSearchId body) }
        | .httpError _ => st
        | .requestExn => { st with project_id := some (PyVal.str "-1") }
        | .processExn _ => { st with project_id := some (PyVal.str "-1") }
  | _ => st

/-- `JiraAPI.__init__` (jiraCore.py lines 48-68): set the configured
attributes and headers (including the `X-ExperimentalAPI` header added
by `_set_authenticated_headers`), run `authenticate` with outcome
`authOut`, choose the project key, then run `project_info` with
outcome `projOut` (at that point the `project_info` attribute is still
unbound, so the method itself executes). -/
def mkClient (v : JiraVars) (project_key : Option String)
    (authOut projOut : Outcome) : ClientState :=
  let st0 : ClientState :=
    { base_url := v.base_jira_url
      default_issue_type_id := v.default_issue_type_id
      default_priority_id := v.default_priority_id
      headers := [("Accept", "application/json"),
                  ("Content-Type", "application/json"),
                  ("X-ExperimentalAPI", "opt-in")]
      default_project_key := project_key.getD v.default_project_key
      project_info_attr := Option.none
      project_id := Option.none
      user_account_id := Option.none }
  let st1 := clientStep .authenticate authOut st0
  clientStep .projectInfo projOut st1

/-- Whether invoking `client.project_info(...)` raises `TypeError`:
Python attribute lookup finds the instance attribute bound at line 147
before the class method, and no JSON value is callable. -/
def projectInfoCallRaisesTypeError (st : ClientState) : Bool :=
  st.project_info_attr.isSome

/-!
`get_file_application_type` (jiraCore.py lines 1028-1051).
-/

/-- The final path component (the characters after the last slash), as
`pathlib.PurePath.name` computes it for ordinary file paths (paths
with trailing slashes or drive letters do not occur here). -/
def afterLastSlash (cs : List Char) : List Char :=
  ((cs.reverse.takeWhile (fun c => c ≠ '/')).reverse)

/-- `pathlib.Path(p).suffix`: the final dot and what follows it,
provided the last dot of the name is neither its first nor its last
character; otherwise the empty string. -/
def suffixOf (name : List Char) : List Char :=
  let afterDot := name.reverse.takeWhile (fun c => c ≠ '.')
  if afterDot.length = name.length then []
  else
    let i := name.length - 1 - afterDot.length
    if 0 < i ∧ i < name.length - 1 then '.' :: afterDot.reverse else []

/-- Python `str.strip(".")`: remove leading and trailing dots. -/
def stripDots (cs : List Char) : List Char :=
  ((cs.dropWhile (fun c => c = '.')).reverse.dropWhile (fun c => c = '.')).reverse

/-- The stripped extension `pathlib.Path(p).suffix.strip(".")` that
`get_file_application_type` computes at lines 1044-1045. -/
def extOf (p : String) : List Char :=
  stripDots (suffixOf (afterLastSlash p.data))

example : extOf "plan.mmp" = ['m', 'm', 'p'] := by decide
example : extOf "README" = [] := by decide
example : extOf "dir/archive.tar" = ['t', 'a', 'r'] := by decide

/-- `get_file_application_type` (jiraCore.py lines 1028-1051).  The
test at line 1046 is `file_extension in ("mmp")`, and `("mmp")` is the
string `"mmp"`, not a tuple, so the test is substring containment in
`"mmp"`.  `mimetypes.guess_type` reads environment-dependent MIME
tables, so it is passed in as the function `guess` (its first
component; `None` when the type cannot be guessed). -/
def get_file_application_type (guess : String → Option String)
    (file_attachment : String) : String :=
  if strIn (extOf file_attachment) ("mmp".data) then
    "application/octet-stream"
  else
    match guess file_attachment with
    | some t => t
    | Option.none => "txt/plain"

/-!
Specification-side description of the selected-choice computation,
stated in the words of spec section 8, property (2): the options
restricted to those whose id appears in the selected-choice list, in
option order, each rendered as a dictionary of `choice_id` and
`value`.
-/

/-- A form option dictionary carrying both an `id` and a `label`
entry (the shape the spec assumes for the entries of a question's
available-options collection). -/
def OptionHasIdLabel (o : PyVal) : Prop :=
  ∃ kvs, o = PyVal.dict kvs ∧
    (lookupStr kvs "id").isSome = true ∧ (lookupStr kvs "label").isSome = true

/-- Spec-side selected choices: filter the options by membership of
their id in the selected-choice list `rs`, keeping option order, and
build the `choice_id`/`value` pair for each survivor. -/
def selectedChoicesSpec (opts rs : List PyVal) : List PyVal :=
  (opts.filter (fun o => rs.any (fun e => pyEq (dictGetD o "id") e))).map
    (fun o => PyVal.dict [("choice_id", dictGetD o "id"), ("value", dictGetD o "label")])

/-- The implementation comprehension agrees with the spec-side
filter/map description on any option list whose entries carry `id`
and `label`. -/
theorem selectedChoices_eq_spec (rs : List PyVal) :
    ∀ opts : List PyVal, (∀ o ∈ opts, OptionHasIdLabel o) →
      selectedChoices opts (PyVal.list rs) = .ok (selectedChoicesSpec opts rs) := by
  intro opts
  induction opts with
  | nil => intro _; rfl
  | cons o rest ih =>
      intro h
      obtain ⟨kvs, ho, hid, hlbl⟩ := h o (List.mem_cons_self _ _)
      subst ho
      obtain ⟨i, hi⟩ := Option.isSome_iff_exists.mp hid
      obtain ⟨l, hl⟩ := Option.isSome_iff_exists.mp hlbl
      have ih2 := ih (fun o2 ho2 => h o2 (List.mem_cons_of_mem _ ho2))
      have hx : pyIndexStrKey (PyVal.dict kvs) "id" = .ok i := by
        simp [pyIndexStrKey, hi]
      have hy : pyIndexStrKey (PyVal.dict kvs) "label" = .ok l := by
        simp [pyIndexStrKey, hl]
      have hz : dictGetD (PyVal.dict kvs) "id" = i := by
        simp [dictGetD, hi]
      have hw : dictGetD (PyVal.dict kvs) "label" = l := by
        simp [dictGetD, hl]
      by_cases hb : (rs.any (fun e => pyEq i e)) = true
      · simp [selectedChoices, selectedChoicesSpec, hx, hy, hz, hw, pyIn, hb,
          List.filter_cons, ih2] at *
      · simp [selectedChoices, selectedChoicesSpec, hx, hy, hz, hw, pyIn, hb,
          List.filter_cons, ih2] at *

/-- C1: for a choice-type question (type code `cs`, `cd`, `cl` or
`cm`) the consolidated value is the `json.dumps` serialization of the
`choice_id`/`value` pairs built from the question's available
options, restricted to exactly the options whose id appears in the
answer's selected-choice list, in option order; it is Python `None`
when the available-options collection is not defined. -/
theorem consolidate_choice_spec (row : Row) (c : String)
    (hq : row.qtype = PyVal.str c)
    (hc : c = "cs" ∨ c = "cd" ∨ c = "cl" ∨ c = "cm") :
    (row.choices_y = PyVal.none → consolidateRow row = .ok PyVal.none) ∧
    (∀ opts rs, row.choices_y = PyVal.list opts → row.choices_x = PyVal.list rs →
      (∀ o ∈ opts, OptionHasIdLabel o) →
      consolidateRow row =
        .ok (PyVal.str (jsonDumps (PyVal.list (selectedChoicesSpec opts rs))))) := by
  obtain ⟨qid, tf, us, lx, cx, d, t, jf, qt, ly, qk, cy⟩ := row
  simp only at hq
  subst hq
  rcases hc with rfl | rfl | rfl | rfl <;>
    · constructor
      · intro hcy
        simp only at hcy
        subst hcy
        rfl
      · intro opts rs hcy hcx hwf
        simp only at hcy hcx
        subst hcy
        subst hcx
        have h := selectedChoices_eq_spec rs opts hwf
        show (match selectedChoices opts (PyVal.list rs) with
              | .error e => Except.error e
              | .ok sel => .ok (PyVal.str (jsonDumps (PyVal.list sel)))) = _
        rw [h]

/-- A sample merged row for a Choice Multiple question: options A and
B with ids 1 and 2, the answer selecting only id 2. -/
def choiceSampleRow : Row :=
  { questionID := "3"
    textField := PyVal.none
    users := PyVal.none
    label_x := PyVal.none
    choices_x := PyVal.list [PyVal.str "2"]
    date := PyVal.none
    time := PyVal.none
    jiraField := PyVal.none
    qtype := PyVal.str "cm"
    label_y := PyVal.str "Pick some"
    questionKey := PyVal.none
    choices_y := PyVal.list
      [PyVal.dict [("id", PyVal.str "1"), ("label", PyVal.str "A")],
       PyVal.dict [("id", PyVal.str "2"), ("label", PyVal.str "B")]] }

theorem consolidate_choice_spec_witness :
    consolidateRow choiceSampleRow =
      .ok (PyVal.str (jsonDumps (PyVal.list (selectedChoicesSpec
        [PyVal.dict [("id", PyVal.str "1"), ("label", PyVal.str "A")],
         PyVal.dict [("id", PyVal.str "2"), ("label", PyVal.str "B")]]
        [PyVal.str "2"])))) :=
  (consolidate_choice_spec choiceSampleRow "cm" rfl
      (Or.inr (Or.inr (Or.inr rfl)))).2
    [PyVal.dict [("id", PyVal.str "1"), ("label", PyVal.str "A")],
     PyVal.dict [("id", PyVal.str "2"), ("label", PyVal.str "B")]]
    [PyVal.str "2"] rfl rfl
    (by
      intro o ho
      simp only [List.mem_cons, List.not_mem_nil, or_false] at ho
      rcases ho with rfl | rfl
      · exact ⟨_, rfl, rfl, rfl⟩
      · exact ⟨_, rfl, rfl, rfl⟩)

example : consolidateRow choiceSampleRow =
    .ok (PyVal.str "[\x7b\"choice_id\": \"2\", \"value\": \"B\"\x7d]") := rfl

/-- C2: for a question of type code `dt` the consolidated value is the
f-string interpolation of the answer's `date` and `time` cells around
the literal letter `H`. -/
theorem consolidate_dt_spec (row : Row) (hq : row.qtype = PyVal.str "dt") :
    consolidateRow row = .ok (PyVal.str (pyStr row.date ++ "H" ++ pyStr row.time)) := by
  obtain ⟨qid, tf, us, lx, cx, d, t, jf, qt, ly, qk, cy⟩ := row
  simp only at hq
  subst hq
  rfl

/-- A sample merged row for a Date/Time question. -/
def dtSampleRow : Row :=
  { questionID := "5"
    textField := PyVal.none
    users := PyVal.none
    label_x := PyVal.none
    choices_x := PyVal.none
    date := PyVal.str "2025-03-14"
    time := PyVal.str "10:30"
    jiraField := PyVal.none
    qtype := PyVal.str "dt"
    label_y := PyVal.none
    questionKey := PyVal.none
    choices_y := PyVal.none }

theorem consolidate_dt_spec_witness :
    consolidateRow dtSampleRow =
      .ok (PyVal.str (pyStr dtSampleRow.date ++ "H" ++ pyStr dtSampleRow.time)) :=
  consolidate_dt_spec dtSampleRow rfl

example : consolidateRow dtSampleRow = .ok (PyVal.str "2025-03-14H10:30") := rfl

/-- Lookup in a string table only succeeds on listed keys. -/
theorem tableGet_mem :
    ∀ (t : List (String × String)) (k v : String),
      tableGet t k = some v → (k, v) ∈ t := by
  intro t
  induction t with
  | nil => intro k v h; simp [tableGet] at h
  | cons p rest ih =>
      intro k v h
      obtain ⟨k2, v2⟩ := p
      simp only [tableGet] at h
      split at h
      · rename_i heq
        obtain rfl := heq
        obtain rfl := Option.some.inj h
        exact List.mem_cons_self _ _
      · exact List.mem_cons_of_mem _ (ih k v h)

/-- C3 (amended): for a question whose type code is not `dt` and not a
choice code but is present in the `response_type_col_ref` table, the
consolidated value is `str` of the cell in the designated source
column.  (For codes absent from the table the claim fails: see the
counterexample.) -/
theorem consolidate_table_spec (row : Row) (c col : String)
    (hq : row.qtype = PyVal.str c)
    (hne : c ≠ "dt" ∧ c ≠ "cs" ∧ c ≠ "cd" ∧ c ≠ "cl" ∧ c ≠ "cm")
    (hcol : tableGet response_col_table c = some col) :
    consolidateRow row = .ok (PyVal.str (pyStr (rowField row col))) := by
  obtain ⟨h1, h2, h3, h4, h5⟩ := hne
  have hmem := tableGet_mem _ _ _ hcol
  simp only [response_col_table, List.mem_cons, List.not_mem_nil, or_false,
    Prod.mk.injEq] at hmem
  obtain ⟨qid, tf, us, lx, cx, d, t, jf, qt, ly, qk, cy⟩ := row
  simp only at hq
  subst hq
  rcases hmem with hkv | hkv | hkv | hkv | hkv | hkv | hkv | hkv | hkv | hkv | hkv |
    hkv | hkv | hkv <;>
    obtain ⟨rfl, rfl⟩ := hkv <;>
    first
    | rfl
    | exact absurd rfl h1
    | exact absurd rfl h2
    | exact absurd rfl h3
    | exact absurd rfl h4
    | exact absurd rfl h5

/-- A sample merged row for a Text Short question. -/
def tsSampleRow : Row :=
  { questionID := "1"
    textField := PyVal.str "hello"
    users := PyVal.none
    label_x := PyVal.none
    choices_x := PyVal.none
    date := PyVal.none
    time := PyVal.none
    jiraField := PyVal.none
    qtype := PyVal.str "ts"
    label_y := PyVal.none
    questionKey := PyVal.none
    choices_y := PyVal.none }

theorem consolidate_table_spec_witness :
    consolidateRow tsSampleRow = .ok (PyVal.str (pyStr (rowField tsSampleRow "textField"))) :=
  consolidate_table_spec tsSampleRow "ts" "textField" rfl (by decide) rfl

/-- A merged row whose type code `zz` is absent from the
`response_type_col_ref` table. -/
def zzSampleRow : Row :=
  { questionID := "9"
    textField := PyVal.str "x"
    users := PyVal.none
    label_x := PyVal.none
    choices_x := PyVal.none
    date := PyVal.none
    time := PyVal.none
    jiraField := PyVal.none
    qtype := PyVal.str "zz"
    label_y := PyVal.none
    questionKey := PyVal.none
    choices_y := PyVal.none }

/-- C3 counterexample: for a type code absent from the table there is
no designated source field at all; `response_type_col_ref` yields
`None`, the pandas cell access raises `KeyError`, and `issue_detail`
returns its `-30` sentinel instead of any consolidated string. -/
theorem consolidate_unknown_type_counterexample :
    response_type_col_ref (PyVal.str "zz") = Option.none ∧
    consolidateRow zzSampleRow = .error PyErr.keyError ∧
    opRun Op.issueDetail (Outcome.processExn 200) = Ret.sentinel (-30) :=
  ⟨rfl, rfl, rfl⟩

/-- C4 (amended): for each operation other than `issue_create` and
`role_info`, an HTTP-level failure returns the call site's
whole-number sentinel minus `0.1` and any other exception returns the
whole-number sentinel itself; but the sentinels are not distinct
across call sites (see the counterexample), `issue_create` returns
the transport status code instead of its sentinel, and `role_info`
raises. -/
theorem failure_code_scheme (op : Op)
    (h1 : op ≠ Op.issueCreate) (h2 : op ≠ Op.roleInfo) (s t : Nat) :
    opRun op (Outcome.httpError s) = Ret.sentinel (sentinelBase op - 1/10) ∧
    opRun op Outcome.requestExn = Ret.sentinel (sentinelBase op) ∧
    opRun op (Outcome.processExn t) = Ret.sentinel (sentinelBase op) := by
  cases op <;>
    first
    | exact absurd rfl h1
    | exact absurd rfl h2
    | (refine ⟨?_, ?_, ?_⟩ <;> (simp [opRun, sentinelBase]; try norm_num))

theorem failure_code_scheme_witness :
    opRun Op.issueAddComment (Outcome.httpError 404) =
      Ret.sentinel (sentinelBase Op.issueAddComment - 1/10) ∧
    opRun Op.issueAddComment Outcome.requestExn =
      Ret.sentinel (sentinelBase Op.issueAddComment) ∧
    opRun Op.issueAddComment (Outcome.processExn 500) =
      Ret.sentinel (sentinelBase Op.issueAddComment) :=
  failure_code_scheme Op.issueAddComment (by decide) (by decide) 404 500

/-- C4 counterexample: two distinct call sites, `issue_add_comment`
(jiraCore.py line 605) and `issue_add_attachment` (line 670), return
the same failure code `-33.1` on an HTTP-level failure, so the codes
are not distinct per call site.  (`issue_create`/`issue_field_update`
likewise share `-35`, and `user_info`/`role_info` share `-17`.) -/
theorem failure_code_collision_counterexample :
    opRun Op.issueAddComment (Outcome.httpError 404) = Ret.sentinel (-33.1) ∧
    opRun Op.issueAddAttachment (Outcome.httpError 404) = Ret.sentinel (-33.1) ∧
    Op.issueAddComment ≠ Op.issueAddAttachment :=
  ⟨rfl, rfl, by decide⟩

/-- C5 (code bug): the policy of catching every exception and
returning a negative code is broken by `role_info`, whose two
handlers call the non-existent `pd.dataframe()` (jiraCore.py lines
950 and 955; `pandas` only has `DataFrame`), so the handler itself
raises `AttributeError` on every failure; and by `issue_create`,
whose generic handler (line 375) reads `response.status_code` while
`response` is unbound when the request call itself raised, raising
`NameError`. -/
theorem exception_propagation_from_handlers :
    opRun Op.roleInfo (Outcome.httpError 404) = Ret.raise ∧
    opRun Op.roleInfo Outcome.requestExn = Ret.raise ∧
    opRun Op.roleInfo (Outcome.processExn 200) = Ret.raise ∧
    opRun Op.issueCreate Outcome.requestExn = Ret.raise :=
  ⟨rfl, rfl, rfl, rfl⟩

/-- C6 (amended): on a successful exchange, only the data-fetching
operations (`payloadOps`) return the parsed payload together with the
transport status code; the mutation-style and bootstrap operations
(`authenticate`, `project_info`, `issue_transition`,
`issue_field_update`, `issue_add_comment`, `issue_assign`,
`issue_add_attachment`, `role_add_user`) return only the status
code. -/
theorem success_return_classification (op : Op) (s : Nat) (body : PyVal) :
    opRun op (Outcome.success s body) =
      if payloadOps.contains op then Ret.payload s body else Ret.status s := by
  cases op <;> rfl

/-- C6 counterexample: `issue_transition` on a successful 204 response
returns only `response.status_code` (jiraCore.py line 398); no parsed
payload accompanies it. -/
theorem issue_transition_success_counterexample :
    opRun Op.issueTransition (Outcome.success 204 (PyVal.dict [])) = Ret.status 204 ∧
    Ret.includesPayload (opRun Op.issueTransition (Outcome.success 204 (PyVal.dict []))) = false :=
  ⟨rfl, rfl⟩

/-- C7 (amended): every operation other than `authenticate` and
`project_info` leaves every instance attribute of the client
unchanged, whatever the outcome of its HTTP exchange.
(`project_info` itself cannot be invoked on a client whose
constructor lookup succeeded: the attribute bound at line 147 shadows
it and the call raises `TypeError` without mutating anything.) -/
theorem non_constructor_ops_preserve_state (op : Op)
    (h1 : op ≠ Op.authenticate) (h2 : op ≠ Op.projectInfo)
    (out : Outcome) (st : ClientState) :
    clientStep op out st = st := by
  cases op <;>
    first
    | exact absurd rfl h1
    | exact absurd rfl h2
    | rfl

/-- A sample client state for the witness. -/
def witnessState : ClientState :=
  { base_url := "https://example.invalid/rest/"
    default_issue_type_id := PyVal.int 10001
    default_priority_id := PyVal.int 10100
    headers := [("Accept", "application/json"),
                ("Content-Type", "application/json"),
                ("X-ExperimentalAPI", "opt-in")]
    default_project_key := "PROJ"
    project_info_attr := some (PyVal.dict [("id", PyVal.str "10000")])
    project_id := some (PyVal.str "10000")
    user_account_id := some (PyVal.str "acct-1") }

theorem non_constructor_ops_preserve_state_witness :
    clientStep Op.issueAddComment (Outcome.success 201 (PyVal.dict [])) witnessState
      = witnessState :=
  non_constructor_ops_preserve_state Op.issueAddComment (by decide) (by decide)
    (Outcome.success 201 (PyVal.dict [])) witnessState

/-- A client state carrying a cached authenticated-user account id. -/
def mutationState : ClientState :=
  { base_url := "https://example.invalid/rest/"
    default_issue_type_id := PyVal.int 10001
    default_priority_id := PyVal.int 10100
    headers := [("Accept", "application/json"),
                ("Content-Type", "application/json"),
                ("X-ExperimentalAPI", "opt-in")]
    default_project_key := "PROJ"
    project_info_attr := some (PyVal.dict [("id", PyVal.str "10000")])
    project_id := some (PyVal.str "10000")
    user_account_id := some (PyVal.str "acct-old") }

/-- C7 counterexample: `authenticate` remains callable after
construction and, on a successful exchange whose body carries a
different `accountId`, overwrites the cached
`self.user_account_id` (jiraCore.py line 117), so not every method
call after construction leaves the client's attributes unchanged. -/
theorem authenticate_mutates_state_counterexample :
    clientStep Op.authenticate
        (Outcome.success 200 (PyVal.dict [("accountId", PyVal.str "acct-new")]))
        mutationState ≠ mutationState := by
  intro h
  have h2 : (some (PyVal.str "acct-new") : Option PyVal) = some (PyVal.str "acct-old") :=
    congrArg ClientState.user_account_id h
  have h3 : PyVal.str "acct-new" = PyVal.str "acct-old" := Option.some.inj h2
  have h4 : "acct-new" = "acct-old" := by injection h3
  exact absurd h4 (by decide)

/-- C8 (amended): provided the constructor's project lookup completed
its happy path, the attribute name `project_info` on the client is
bound to the parsed project document (shadowing the method of the
same name), and invoking `project_info` as a method afterwards raises
`TypeError` instead of performing a lookup.  (When the constructor's
lookup failed the method is not shadowed: see the counterexample.) -/
theorem project_info_shadowed_after_success (v : JiraVars) (pk : Option String)
    (authOut : Outcome) (s : Nat) (body : PyVal) :
    (mkClient v pk authOut (Outcome.success s body)).project_info_attr = some body ∧
    projectInfoCallRaisesTypeError (mkClient v pk authOut (Outcome.success s body)) = true := by
  cases authOut with
  | success s2 b2 => cases b2 <;> exact ⟨rfl, rfl⟩
  | httpError s2 => exact ⟨rfl, rfl⟩
  | requestExn => exact ⟨rfl, rfl⟩
  | processExn s2 => exact ⟨rfl, rfl⟩

/-- Sample constructor configuration. -/
def sampleVars : JiraVars :=
  { base_jira_url := "https://example.invalid/rest/"
    default_issue_type_id := PyVal.int 10001
    default_priority_id := PyVal.int 10100
    default_project_key := "PROJ" }

/-- C8 counterexample: construction completes even when the project
lookup fails (the negative code returned by `project_info` is ignored
by `__init__`), and then the attribute `project_info` is never bound:
the method is not shadowed and invoking it again performs a lookup
rather than raising `TypeError`. -/
theorem project_info_not_shadowed_counterexample :
    (mkClient sampleVars (some "PROJ")
        (Outcome.success 200 (PyVal.dict [("accountId", PyVal.str "acct-1")]))
        (Outcome.httpError 404)).project_info_attr = Option.none ∧
    projectInfoCallRaisesTypeError (mkClient sampleVars (some "PROJ")
        (Outcome.success 200 (PyVal.dict [("accountId", PyVal.str "acct-1")]))
        (Outcome.httpError 404)) = false :=
  ⟨rfl, rfl⟩

/-- C9: an address rejected by the email pattern makes
`user_by_email` return the namedtuple with `status_code = -18.1`, an
empty `jira_user_dict` and `jira_user_found = 0` without performing
any HTTP request (whatever outcome the request would have had), and
the same `-18.1` code is what an HTTP-level failure of the actual
search request produces for a well-formed address. -/
theorem user_by_email_invalid_email_spec (email good : String)
    (h : emailPatternMatch email = false)
    (hg : emailPatternMatch good = true) (out : Outcome) (s : Nat) :
    user_by_email email out =
      (false, UserByEmailRet.userRec (-18.1) (PyVal.dict []) 0) ∧
    user_by_email good (Outcome.httpError s) =
      (true, UserByEmailRet.errPair (-18.1)) := by
  constructor
  · simp [user_by_email, h]
  · simp [user_by_email, hg]

theorem user_by_email_invalid_email_spec_witness :
    user_by_email "not-an-email" (Outcome.success 200 (PyVal.list [])) =
      (false, UserByEmailRet.userRec (-18.1) (PyVal.dict []) 0) ∧
    user_by_email "ab@cd.ef" (Outcome.httpError 404) =
      (true, UserByEmailRet.errPair (-18.1)) :=
  user_by_email_invalid_email_spec "not-an-email" "ab@cd.ef" (by decide) (by decide)
    (Outcome.success 200 (PyVal.list [])) 404

/-- C10 (amended): the first branch of `get_file_application_type`
fires for every extension that is a substring of `"mmp"` (so `mmp`
itself, but also the empty extension and `m`, `p`, `mm`, `mp`),
returning `application/octet-stream`; only for other extensions does
an unguessable MIME type yield the literal `txt/plain`, and a guessed
type is returned as is. -/
theorem file_application_type_spec (guess : String → Option String) (p t : String) :
    (strIn (extOf p) ("mmp".data) = true →
      get_file_application_type guess p = "application/octet-stream") ∧
    (strIn (extOf p) ("mmp".data) = false → guess p = Option.none →
      get_file_application_type guess p = "txt/plain") ∧
    (strIn (extOf p) ("mmp".data) = false → guess p = some t →
      get_file_application_type guess p = t) := by
  refine ⟨fun h => ?_, fun h hg => ?_, fun h hg => ?_⟩
  · simp [get_file_application_type, h]
  · simp [get_file_application_type, h, hg]
  · simp [get_file_application_type, h, hg]

theorem file_application_type_spec_witness :
    get_file_application_type (fun _ => Option.none) "plan.mmp"
      = "application/octet-stream" ∧
    get_file_application_type (fun _ => some "text/x-python") "script.py"
      = "text/x-python" :=
  ⟨(file_application_type_spec (fun _ => Option.none) "plan.mmp" "t").1 (by decide),
   (file_application_type_spec (fun _ => some "text/x-python") "script.py"
      "text/x-python").2.2 (by decide) rfl⟩

/-- C10 counterexample: `"README"` has no extension, its MIME type
cannot be guessed from its name, yet the function returns
`application/octet-stream`, not `txt/plain`: the empty stripped
extension is a substring of `"mmp"`, so the line-1046 test
`file_extension in ("mmp")` (a substring test on the string `"mmp"`,
not a tuple membership) already fires. -/
theorem unguessable_type_counterexample :
    get_file_application_type (fun _ => Option.none) "README"
      = "application/octet-stream" ∧
    get_file_application_type (fun _ => Option.none) "README" ≠ "txt/plain" :=
  ⟨rfl, by decide⟩
